import Mathlib

/-!
# Verification of the Wayback Machine lookup adapter (`src/server.py`)

A shallow embedding of the pure request-construction and response-reshaping
logic of the adapter.  Python strings are modelled as `List Char`; dict/JSON
values coming back from the upstream API are modelled structurally; fallible
code (exceptions raised inside a handler) is modelled with `Except String`.
-/

/-- Python strings are modelled as lists of characters. -/
abbrev Str := List Char

/-! ## Character and digit helpers -/

/-- Numeric code point of a character (`ord` in Python). -/
def chOrd (c : Char) : Nat := c.toNat

/-- Decimal-digit test on a character, `'0' <= c <= '9'`. -/
def isDigitCh (c : Char) : Bool := 48 ≤ chOrd c && chOrd c ≤ 57

/-- Numeric value of a decimal digit character. -/
def digitVal (c : Char) : Nat := chOrd c - 48

/-- The decimal digit character for `n % 10` (used to model zero-padded
`strftime` fields). -/
def digitCh (n : Nat) : Char :=
  ⟨⟨⟨48 + n % 10, by omega⟩⟩, Or.inl (show 48 + n % 10 < 55296 by omega)⟩

/-! ## Python `str.ljust` -/

/-- `s.ljust(w, c)`: pad `s` on the right with `c` up to width `w`. -/
def ljust (s : Str) (w : Nat) (c : Char) : Str :=
  s ++ List.replicate (w - s.length) c

/-! ## `datetime.strptime(ts, "%Y%m%d%H%M%S")`

CPython's `_strptime` compiles the format to a regex whose field patterns are
`%Y = \d{4}`, `%m = 1[0-2]|0[1-9]|[1-9]`, `%d = 3[01]|[12]\d|0[1-9]|[1-9]`,
`%H = 2[0-3]|[0-1]\d|\d`, `%M = [0-5]\d|\d`, `%S = 6[0-1]|[0-5]\d|\d`, each
two-digit alternative tried first, and raises `ValueError` when the match does
not consume the whole input.  On a 14-character input every field must take its
two-digit form (a one-digit match leaves unconverted data), so a successful
parse requires 14 decimal digits whose two-digit fields are in range;
`datetime` construction additionally validates the day against the month
(Gregorian leap rule) and rejects year 0 and seconds 60-61. -/

/-- Gregorian leap-year test, as `datetime` uses. -/
def isLeapYear (y : Nat) : Bool := (y % 4 == 0 && y % 100 != 0) || y % 400 == 0

/-- Days in a month, as `datetime` validates the day field. -/
def daysInMonth (y m : Nat) : Nat :=
  if m == 2 then (if isLeapYear y then 29 else 28)
  else if m == 4 || m == 6 || m == 9 || m == 11 then 30
  else 31

/-- `datetime.strptime` on a 14-character string with format
`"%Y%m%d%H%M%S"`: `some (y, mo, da, ho, mi, se)` on success, `none` when
CPython would raise `ValueError`. -/
def strptime14 (s : Str) : Option (Nat × Nat × Nat × Nat × Nat × Nat) :=
  match s with
  | [a, b, c, d, e, f, g, h, i, j, k, l, m, n] =>
    if (List.all [a, b, c, d, e, f, g, h, i, j, k, l, m, n] isDigitCh) then
      let y := 1000 * digitVal a + 100 * digitVal b + 10 * digitVal c + digitVal d
      let mo := 10 * digitVal e + digitVal f
      let da := 10 * digitVal g + digitVal h
      let ho := 10 * digitVal i + digitVal j
      let mi := 10 * digitVal k + digitVal l
      let se := 10 * digitVal m + digitVal n
      if 1 ≤ y && 1 ≤ mo && mo ≤ 12 && 1 ≤ da && da ≤ daysInMonth y mo &&
          ho ≤ 23 && mi ≤ 59 && se ≤ 59 then
        some (y, mo, da, ho, mi, se)
      else none
    else none
  | _ => none

/-! ## `dt.strftime("%Y-%m-%d %H:%M:%S UTC")` -/

/-- Two-digit zero-padded decimal rendering of a field (`%m`, `%d`, `%H`,
`%M`, `%S`). -/
def pad2 (n : Nat) : Str := [digitCh (n / 10), digitCh n]

/-- Four-digit zero-padded decimal rendering of the year (`%Y`). -/
def pad4 (n : Nat) : Str := [digitCh (n / 1000), digitCh (n / 100), digitCh (n / 10), digitCh n]

/-- `dt.strftime("%Y-%m-%d %H:%M:%S UTC")` on the parsed components. -/
def renderTs (y mo da ho mi se : Nat) : Str :=
  pad4 y ++ ('-' :: pad2 mo) ++ ('-' :: pad2 da) ++ (' ' :: pad2 ho) ++
    (':' :: pad2 mi) ++ (':' :: pad2 se) ++ [' ', 'U', 'T', 'C']

/-- `_format_timestamp` from `src/server.py`: right-pad with `'0'` to 14
characters, parse the first 14 characters as `%Y%m%d%H%M%S` and render them;
any `ValueError` from the parse is caught and the (already reassigned, hence
padded) `ts` is returned. -/
def _format_timestamp (ts : Str) : Str :=
  let padded := ljust ts 14 '0'
  match strptime14 (padded.take 14) with
  | some (y, mo, da, ho, mi, se) => renderTs y mo da ho mi se
  | none => padded

/-- Spec-side shape predicate, following the spec's words: a rendering
`YYYY-MM-DD HH:MM:SS UTC` — 23 characters, digit fields separated by the
literal punctuation of the format. -/
def specFormattedShape (s : Str) : Bool :=
  match s with
  | [y1, y2, y3, y4, '-', m1, m2, '-', d1, d2, ' ', h1, h2, ':', n1, n2, ':',
     s1, s2, ' ', 'U', 'T', 'C'] =>
    isDigitCh y1 && isDigitCh y2 && isDigitCh y3 && isDigitCh y4 &&
    isDigitCh m1 && isDigitCh m2 && isDigitCh d1 && isDigitCh d2 &&
    isDigitCh h1 && isDigitCh h2 && isDigitCh n1 && isDigitCh n2 &&
    isDigitCh s1 && isDigitCh s2
  | _ => false

theorem isDigitCh_digitCh (n : Nat) : isDigitCh (digitCh n) = true := by
  have h : chOrd (digitCh n) = 48 + n % 10 := rfl
  simp only [isDigitCh, h, Bool.and_eq_true, decide_eq_true_eq]
  omega

theorem specFormattedShape_renderTs (y mo da ho mi se : Nat) :
    specFormattedShape (renderTs y mo da ho mi se) = true := by
  simp [renderTs, pad4, pad2, specFormattedShape, isDigitCh_digitCh]

theorem ljust_of_ge (s : Str) (h : 14 ≤ s.length) : ljust s 14 '0' = s := by
  simp [ljust, Nat.sub_eq_zero_of_le h]

/-- C4 counterexample: `"1"` is a 1-digit numeric timestamp whose parse fails,
yet `_format_timestamp` returns the zero-padded `"10000000000000"` — neither
the original input nor a formatted string. -/
theorem format_timestamp_claim_counterexample :
    (∀ c ∈ ("1".data : Str), isDigitCh c = true) ∧
    strptime14 ((ljust "1".data 14 '0').take 14) = none ∧
    _format_timestamp "1".data = "10000000000000".data ∧
    _format_timestamp "1".data ≠ "1".data ∧
    specFormattedShape (_format_timestamp "1".data) = false := by decide

/-- C4 (amended): `_format_timestamp` never raises; it right-pads to 14 with
`'0'` and parses the first 14 characters; on success it renders
`YYYY-MM-DD HH:MM:SS UTC`, and on parse failure it returns the *padded*
string, which equals the original input exactly when the input already has at
least 14 characters. -/
theorem format_timestamp_amended (s : Str) :
    (strptime14 ((ljust s 14 '0').take 14) = none →
      _format_timestamp s = ljust s 14 '0') ∧
    ((strptime14 ((ljust s 14 '0').take 14)).isSome = true →
      specFormattedShape (_format_timestamp s) = true) ∧
    (14 ≤ s.length → strptime14 (s.take 14) = none → _format_timestamp s = s) := by
  refine ⟨?_, ?_, ?_⟩
  · intro h
    simp [_format_timestamp, h]
  · intro h
    rcases Option.isSome_iff_exists.mp h with ⟨⟨y, mo, da, ho, mi, se⟩, hv⟩
    simp [_format_timestamp, hv, specFormattedShape_renderTs]
  · intro hl hp
    have he : ljust s 14 '0' = s := ljust_of_ge s hl
    simp [_format_timestamp, he, hp]

/-- Witness for C4 (amended) at concrete inputs. -/
theorem format_timestamp_amended_witness :
    specFormattedShape (_format_timestamp "20230101120000".data) = true ∧
    _format_timestamp "20230230999999".data = "20230230999999".data :=
  ⟨(format_timestamp_amended "20230101120000".data).2.1 (by decide),
   (format_timestamp_amended "20230230999999".data).2.2 (by decide) (by decide)⟩

/-! ## `get_snapshot_content`: truncation (`src/server.py` lines 355-366) -/

/-- `MAX_CHARS` from `get_snapshot_content`. -/
def MAX_CHARS : Nat := 50000

/-- The reshaped result of `get_snapshot_content` (before JSON serialization). -/
structure ContentResult where
  snapshot_url : Str
  content_length : Nat
  truncated : Bool
  content : Str
deriving Repr, DecidableEq

/-- The truncation and result construction of `get_snapshot_content`:
`truncated = len(content) > MAX_CHARS`; if truncated, keep only the first
`MAX_CHARS` characters; `content_length = len(content)` after truncation. -/
def truncateContent (snapshot_url body : Str) : ContentResult :=
  let truncated := decide (body.length > MAX_CHARS)
  let content := if truncated then body.take MAX_CHARS else body
  { snapshot_url := snapshot_url, content_length := content.length,
    truncated := truncated, content := content }

/-- C5: bodies longer than 50,000 characters are cut to the first 50,000 with
`truncated = true`; bodies of at most 50,000 characters pass through unchanged
with `truncated = false`; `content_length` is the length of the returned
content. -/
theorem get_snapshot_content_truncation (u body : Str) :
    (50000 < body.length →
      (truncateContent u body).content = body.take 50000 ∧
      (truncateContent u body).truncated = true) ∧
    (body.length ≤ 50000 →
      (truncateContent u body).content = body ∧
      (truncateContent u body).truncated = false) ∧
    (truncateContent u body).content_length
      = (truncateContent u body).content.length := by
  refine ⟨?_, ?_, ?_⟩
  · intro h
    simp [truncateContent, MAX_CHARS, h]
  · intro h
    have h' : ¬ (50000 < body.length) := by omega
    simp [truncateContent, MAX_CHARS, h']
  · by_cases h : 50000 < body.length <;> simp [truncateContent, MAX_CHARS, h]

/-- Witness for C5 at a 50,001-character body and a 3-character body. -/
theorem get_snapshot_content_truncation_witness :
    (truncateContent [] (List.replicate 50001 'a')).truncated = true ∧
    (truncateContent [] (List.replicate 50001 'a')).content
      = (List.replicate 50001 'a').take 50000 ∧
    (truncateContent [] "abc".data).truncated = false :=
  ⟨((get_snapshot_content_truncation [] (List.replicate 50001 'a')).1
      (by rw [List.length_replicate]; norm_num)).2,
   ((get_snapshot_content_truncation [] (List.replicate 50001 'a')).1
      (by rw [List.length_replicate]; norm_num)).1,
   ((get_snapshot_content_truncation [] "abc".data).2.1 (by decide)).2⟩

/-! ## `search_snapshots`: the `limit` parameter (`src/server.py` line 271) -/

/-- `limit = min(int(args.get("limit", 10)), 100)`: the value sent upstream. -/
def limitSent (requested : Option Int) : Int := min (requested.getD 10) 100

/-- C2 counterexample: requesting `limit = 0` sends `limit = 0` upstream,
which is outside the inclusive range `[1, 100]` the claim asserts. -/
theorem search_limit_counterexample :
    limitSent (some 0) = 0 ∧ ¬ (1 ≤ limitSent (some 0)) := by decide

/-- C2 (amended): the upstream `limit` is `min(requested, 100)` with default
10 when absent — values above 100 are clamped to 100 (in particular 500), but
there is no lower clamp: any requested value at most 100, including 0 and
negatives, is sent as-is. -/
theorem search_limit_amended (r : Int) :
    (100 ≤ r → limitSent (some r) = 100) ∧
    (r ≤ 100 → limitSent (some r) = r) ∧
    limitSent none = 10 ∧ limitSent (some 500) = 100 ∧ limitSent (some r) ≤ 100 := by
  refine ⟨fun h => min_eq_right h, fun h => min_eq_left h, by decide, by decide,
    min_le_right _ _⟩

/-- Witness for C2 (amended) at requested values 500 and 0. -/
theorem search_limit_amended_witness :
    limitSent (some 500) = 100 ∧ limitSent (some 0) = 0 :=
  ⟨(search_limit_amended 500).1 (by norm_num),
   (search_limit_amended 0).2.1 (by norm_num)⟩

/-! ## `get_snapshot_content`: raw-mode URL rewrite (`src/server.py` lines 341-346)

Python's `sep in s` and `s.split(sep, 1)` are modelled by a first-occurrence
search over character lists. -/

/-- `l.startswith(p)`. -/
def startsWithL : Str → Str → Bool
  | [], _ => true
  | _ :: _, [] => false
  | p :: ps, c :: cs => p == c && startsWithL ps cs

/-- Split around the first occurrence of `sep` in `s`: `some (before, after)`
when `sep` occurs, `none` otherwise (for nonempty `sep`). -/
def splitOnceAux (sep : Str) : Str → Option (Str × Str)
  | [] => none
  | c :: rest =>
    if startsWithL sep (c :: rest) then some ([], (c :: rest).drop sep.length)
    else
      match splitOnceAux sep rest with
      | some (a, b) => some (c :: a, b)
      | none => none

/-- Python `s.split(sep, 1)` for nonempty `sep`: one or two pieces. -/
def splitOnce (sep s : Str) : List Str :=
  match splitOnceAux sep s with
  | some (a, b) => [a, b]
  | none => [s]

/-- Python `sep in s`. -/
def containsSub (sep : Str) : Str → Bool
  | [] => sep.isEmpty
  | c :: rest => startsWithL sep (c :: rest) || containsSub sep rest

/-- The literal `"/web/"`. -/
def webSep : Str := ['/', 'w', 'e', 'b', '/']

/-- The inserted modifier-plus-separator `"id_/"`. -/
def idMod : Str := ['i', 'd', '_', '/']

/-- The raw-mode URL rewrite of `get_snapshot_content`: when `raw` and
`"/web/"` occurs in the URL, split at the first `"/web/"`, split the remainder
at its first `"/"`, and when that yields two pieces rebuild the URL as
`parts[0] + "/web/" + ts + "id_/" + rest`; in every other case the URL is
unchanged. -/
def rewriteRaw (raw : Bool) (snapshot_url : Str) : Str :=
  if raw && containsSub webSep snapshot_url then
    match splitOnce webSep snapshot_url with
    | [p0, p1] =>
      match splitOnce ['/'] p1 with
      | [ts, rest] => p0 ++ webSep ++ ts ++ idMod ++ rest
      | _ => snapshot_url
    | _ => snapshot_url
  else snapshot_url

theorem startsWithL_append_self (sep b : Str) : startsWithL sep (sep ++ b) = true := by
  induction sep with
  | nil => rfl
  | cons p ps ih => simp [startsWithL, ih]

theorem startsWithL_of_append (sep a b : Str) (h : startsWithL sep (a ++ b) = true)
    (hl : sep.length ≤ a.length) : startsWithL sep a = true := by
  induction sep generalizing a with
  | nil => rfl
  | cons p ps ih =>
    cases a with
    | nil => simp at hl
    | cons x xs =>
      rw [List.cons_append] at h
      simp only [startsWithL, Bool.and_eq_true] at h ⊢
      exact ⟨h.1, ih xs h.2 (by simpa using hl)⟩

theorem splitOnceAux_append_self (sep b : Str) (hne : sep ≠ []) :
    splitOnceAux sep (sep ++ b) = some ([], b) := by
  cases sep with
  | nil => exact absurd rfl hne
  | cons s ss =>
    rw [List.cons_append]
    simp only [splitOnceAux]
    rw [if_pos]
    · rw [← List.cons_append, List.drop_left]
    · rw [← List.cons_append]
      exact startsWithL_append_self (s :: ss) b

theorem splitOnceAux_first (sep a b : Str) (hne : sep ≠ [])
    (hno : containsSub sep (a ++ sep.dropLast) = false) :
    splitOnceAux sep (a ++ sep ++ b) = some (a, b) := by
  induction a with
  | nil =>
    rw [List.nil_append]
    exact splitOnceAux_append_self sep b hne
  | cons x xs ih =>
    have hno' : startsWithL sep (x :: (xs ++ sep.dropLast)) = false ∧
        containsSub sep (xs ++ sep.dropLast) = false := by
      rw [List.cons_append] at hno
      simpa [containsSub, Bool.or_eq_false_iff] using hno
    have hshape : (x :: xs) ++ sep ++ b = x :: (xs ++ sep ++ b) := by simp
    rw [hshape]
    have hsw : startsWithL sep (x :: (xs ++ sep ++ b)) = false := by
      by_contra hcne
      rw [Bool.not_eq_false] at hcne
      have e : x :: (xs ++ sep ++ b)
          = (x :: (xs ++ sep.dropLast)) ++ ([sep.getLast hne] ++ b) := by
        conv_lhs => rw [← List.dropLast_append_getLast hne]
        simp
      have hlen : sep.length ≤ (x :: (xs ++ sep.dropLast)).length := by
        have h1 : sep.dropLast.length = sep.length - 1 := List.length_dropLast sep
        have h2 : 1 ≤ sep.length := List.length_pos.mpr hne
        simp only [List.length_cons, List.length_append, h1]
        omega
      rw [e] at hcne
      have hres := startsWithL_of_append sep _ _ hcne hlen
      rw [hno'.1] at hres
      exact Bool.false_ne_true hres
    simp only [splitOnceAux, hsw, Bool.false_eq_true, if_false, ih hno'.2]

theorem splitOnceAux_isSome_eq_containsSub (sep : Str) (hne : sep ≠ []) (s : Str) :
    (splitOnceAux sep s).isSome = containsSub sep s := by
  induction s with
  | nil =>
    simp [splitOnceAux, containsSub, List.isEmpty_iff, hne]
  | cons c rest ih =>
    simp only [splitOnceAux, containsSub]
    by_cases h : startsWithL sep (c :: rest) = true
    · simp [h]
    · rw [Bool.not_eq_true] at h
      rw [h]
      simp only [Bool.false_eq_true, if_false, Bool.false_or]
      rw [← ih]
      cases splitOnceAux sep rest with
      | none => rfl
      | some p => rfl

theorem splitOnceAux_eq_none_of_not_contains (sep : Str) (hne : sep ≠ []) (s : Str)
    (h : containsSub sep s = false) : splitOnceAux sep s = none := by
  have := splitOnceAux_isSome_eq_containsSub sep hne s
  rw [h] at this
  exact Option.not_isSome_iff_eq_none.mp (by rw [this]; exact Bool.false_ne_true)

/-- C6: for a snapshot URL `pre ++ "/web/" ++ ts ++ "/" ++ orig` whose
displayed `"/web/"` is the first one in the URL (no occurrence of `"/web/"`
inside `pre ++ "/web"`) and whose timestamp component contains no `'/'`,
raw mode rewrites the fetch URL to `pre ++ "/web/" ++ ts ++ "id_/" ++ orig`,
inserting the `id_` modifier immediately after the timestamp. -/
theorem raw_rewrite_inserts_id (pre ts orig : Str)
    (h1 : containsSub webSep (pre ++ webSep.dropLast) = false)
    (h2 : containsSub ['/'] ts = false) :
    rewriteRaw true (pre ++ webSep ++ (ts ++ '/' :: orig))
      = pre ++ webSep ++ ts ++ idMod ++ orig := by
  have hne : webSep ≠ ([] : Str) := by decide
  have hs1 : splitOnceAux webSep (pre ++ webSep ++ (ts ++ '/' :: orig))
      = some (pre, ts ++ '/' :: orig) := splitOnceAux_first webSep pre _ hne h1
  have hc1 : containsSub webSep (pre ++ webSep ++ (ts ++ '/' :: orig)) = true := by
    rw [← splitOnceAux_isSome_eq_containsSub webSep hne, hs1]
    rfl
  have hs2 : splitOnceAux ['/'] (ts ++ '/' :: orig) = some (ts, orig) := by
    have h2' : containsSub ['/'] (ts ++ List.dropLast ['/']) = false := by
      simpa using h2
    have := splitOnceAux_first ['/'] ts orig (by decide) h2'
    simpa using this
  simp only [rewriteRaw, hc1, Bool.and_true, if_true, splitOnce, hs1, hs2]

/-- Witness for C6 at the concrete input from the specification. -/
theorem raw_rewrite_inserts_id_witness :
    rewriteRaw true "https://web.archive.org/web/20230101120000/https://example.com".data
      = "https://web.archive.org/web/20230101120000id_/https://example.com".data := by
  have h := raw_rewrite_inserts_id "https://web.archive.org".data
    "20230101120000".data "https://example.com".data (by decide) (by decide)
  have e1 : "https://web.archive.org/web/20230101120000/https://example.com".data
      = "https://web.archive.org".data ++ webSep ++
        ("20230101120000".data ++ '/' :: "https://example.com".data) := by decide
  have e2 : "https://web.archive.org".data ++ webSep ++ "20230101120000".data ++
        idMod ++ "https://example.com".data
      = "https://web.archive.org/web/20230101120000id_/https://example.com".data := by
    decide
  rw [e1, h, e2]

/-- C10: when the URL does not contain `"/web/"`, or the portion after the
first `"/web/"` contains no further `'/'`, raw mode leaves the fetch URL
unchanged. -/
theorem raw_rewrite_no_insert (u : Str)
    (h : containsSub webSep u = false ∨
      ∃ p0 p1, splitOnceAux webSep u = some (p0, p1) ∧
        containsSub ['/'] p1 = false) :
    rewriteRaw true u = u := by
  have hne : webSep ≠ ([] : Str) := by decide
  rcases h with hc | ⟨p0, p1, hs, hc⟩
  · simp [rewriteRaw, hc]
  · have hc1 : containsSub webSep u = true := by
      rw [← splitOnceAux_isSome_eq_containsSub webSep hne, hs]
      rfl
    have hs2 : splitOnceAux ['/'] p1 = none :=
      splitOnceAux_eq_none_of_not_contains ['/'] (by decide) p1 hc
    simp only [rewriteRaw, hc1, Bool.and_true, if_true, splitOnce, hs, hs2]

/-- Witness for C10: a URL with no `"/web/"` and one whose tail after
`"/web/"` has no further slash both pass through unchanged. -/
theorem raw_rewrite_no_insert_witness :
    rewriteRaw true "https://example.com".data = "https://example.com".data ∧
    rewriteRaw true "https://web.archive.org/web/20230101120000".data
      = "https://web.archive.org/web/20230101120000".data :=
  ⟨raw_rewrite_no_insert "https://example.com".data (Or.inl (by decide)),
   raw_rewrite_no_insert "https://web.archive.org/web/20230101120000".data
     (Or.inr ⟨"https://web.archive.org".data, "20230101120000".data,
       by decide, by decide⟩)⟩

/-! ## Upstream interaction model

Each outbound HTTP request is modelled by its outcome: `Except.error e` for a
transport failure (the client raises), `Except.ok (code, body)` for a
completed response with HTTP status `code` and parsed body.  Exceptions
raised inside a handler are the `Except.error` values of the handler. -/

/-- `response.raise_for_status()` of httpx: raises unless the status code is
2xx. -/
def raise_for_status (code : Nat) : Except String Unit :=
  if 200 ≤ code ∧ code < 300 then Except.ok () else Except.error "HTTPStatusError"

/-! ## `search_snapshots`: response reshaping (`src/server.py` lines 294-334) -/

/-- One reshaped snapshot record of `search_snapshots`. -/
structure SearchSnapshot where
  timestamp : Str
  formatted_time : Str
  snapshot_url : Str
  original_url : Str
  status_code : Str
  mime_type : Str
  size_bytes : Str
deriving Repr, DecidableEq

/-- The reshaped result of `search_snapshots`. -/
structure SearchResult where
  url : Str
  total_found : Nat
  snapshots : List SearchSnapshot
deriving Repr, DecidableEq

/-- `WAYBACK_BASE_URL` from `src/server.py`. -/
def WAYBACK_BASE_URL : Str := "https://web.archive.org/web".data

/-- `dict(zip(headers, row)).get(key, dflt)`: `zip` truncates at the shorter
list, a duplicated header keeps the last pairing, a missing key yields the
default. -/
def dictZipGet (headers row : List Str) (key dflt : Str) : Str :=
  match (headers.zip row).reverse.find? (fun p => p.1 == key) with
  | some p => p.2
  | none => dflt

/-- One iteration of the row loop of `search_snapshots`: build the snapshot
record from the header names zipped onto the row positionally. -/
def mkSearchSnapshot (headers row : List Str) : SearchSnapshot :=
  let ts := dictZipGet headers row "timestamp".data []
  { timestamp := ts
    formatted_time := _format_timestamp ts
    snapshot_url := WAYBACK_BASE_URL ++ '/' :: ts ++ '/' ::
      dictZipGet headers row "original".data []
    original_url := dictZipGet headers row "original".data []
    status_code := dictZipGet headers row "statuscode".data []
    mime_type := dictZipGet headers row "mimetype".data []
    size_bytes := dictZipGet headers row "length".data [] }

/-- The response reshaping of `search_snapshots`: an empty array or one with
fewer than two elements yields zero results; otherwise the first element is
the header row and every further element is zipped onto it. -/
def searchReshape (url : Str) (raw : List (List Str)) : SearchResult :=
  if raw.isEmpty || raw.length < 2 then
    { url := url, total_found := 0, snapshots := [] }
  else
    let headers := raw.headD []
    let rows := raw.tail
    let snapshots := rows.map (mkSearchSnapshot headers)
    { url := url, total_found := snapshots.length, snapshots := snapshots }

/-! ## Availability lookups (`get_latest_snapshot`, `get_snapshot_at_date`) -/

/-- The `archived_snapshots.closest` object of an availability response; every
field may be absent. -/
structure Closest where
  available : Option Bool
  url : Option Str
  timestamp : Option Str
  status : Option Str
deriving Repr, DecidableEq

/-- Python truthiness of `closest.get("available")`: a missing key and `False`
are falsy. -/
def truthyOpt : Option Bool → Bool
  | some b => b
  | none => false

/-- The reshaped result of `get_latest_snapshot`: the no-snapshot shape has no
`snapshot_url` field at all. -/
inductive LatestResult where
  | notAvailable (url message : Str)
  | available (original_url snapshot_url timestamp formatted_time status : Str)
deriving Repr, DecidableEq

/-- `get_latest_snapshot` from `src/server.py` (lines 177-217), as a function
of the availability-endpoint response. -/
def get_latest_snapshot (url : Str) (resp : Except String (Nat × Option Closest)) :
    Except String LatestResult := do
  let (code, closest) ← resp
  let _ ← raise_for_status code
  match closest with
  | none => pure (LatestResult.notAvailable url "No snapshots found for this URL".data)
  | some c =>
    if truthyOpt c.available then
      match c.timestamp with
      | none => Except.error "KeyError: timestamp"
      | some ts =>
        match c.url with
        | none => Except.error "KeyError: url"
        | some u =>
          pure (LatestResult.available url u ts (_format_timestamp ts)
            (c.status.getD "unknown".data))
    else
      pure (LatestResult.notAvailable url "No snapshots found for this URL".data)

/-- The reshaped result of `get_snapshot_at_date`. -/
inductive AtDateResult where
  | notAvailable (url requested_timestamp message : Str)
  | available (original_url requested_timestamp snapshot_url actual_timestamp
      actual_formatted_time status : Str)
deriving Repr, DecidableEq

/-- `get_snapshot_at_date` from `src/server.py` (lines 220-266). -/
def get_snapshot_at_date (url timestamp : Str)
    (resp : Except String (Nat × Option Closest)) : Except String AtDateResult := do
  let (code, closest) ← resp
  let _ ← raise_for_status code
  match closest with
  | none =>
    pure (AtDateResult.notAvailable url timestamp "No snapshots found near this date".data)
  | some c =>
    if truthyOpt c.available then
      match c.timestamp with
      | none => Except.error "KeyError: timestamp"
      | some ts =>
        match c.url with
        | none => Except.error "KeyError: url"
        | some u =>
          pure (AtDateResult.available url timestamp u ts (_format_timestamp ts)
            (c.status.getD "unknown".data))
    else
      pure (AtDateResult.notAvailable url timestamp "No snapshots found near this date".data)

/-! ## Remaining handlers as functions of their upstream responses -/

/-- `search_snapshots` from `src/server.py` (lines 269-334): raise for a
non-2xx CDX status, then reshape the JSON rows. -/
def search_snapshots (url : Str) (resp : Except String (Nat × List (List Str))) :
    Except String SearchResult := do
  let (code, raw) ← resp
  let _ ← raise_for_status code
  pure (searchReshape url raw)

/-- `get_snapshot_content` from `src/server.py` (lines 337-370): rewrite the
URL in raw mode, fetch, raise for a non-2xx status, then truncate. -/
def get_snapshot_content (snapshot_url : Str) (raw : Bool)
    (resp : Except String (Nat × Str)) : Except String ContentResult := do
  let u := rewriteRaw raw snapshot_url
  let (code, body) ← resp
  let _ ← raise_for_status code
  pure (truncateContent u body)

/-! ## `check_url_availability` (`src/server.py` lines 373-418) -/

/-- One snapshot entry of the `check_url_availability` result. -/
structure CheckSnap where
  timestamp : Str
  formatted_time : Str
deriving Repr, DecidableEq

/-- The reshaped result of `check_url_availability`. -/
structure CheckResult where
  url : Str
  is_archived : Bool
  first_snapshot : Option CheckSnap
  latest_snapshot : Option CheckSnap
  wayback_url : Str
deriving Repr, DecidableEq

/-- The two identical inline blocks of `check_url_availability`: when the data
is nonempty with more than one element, read `data[1][0]` (an out-of-range
index raises) and build the snapshot entry; otherwise leave it `None`. -/
def snapFromData (data : List (List Str)) : Except String (Option CheckSnap) :=
  if !data.isEmpty && decide (data.length > 1) then
    match data.get? 1 with
    | some row =>
      match row.get? 0 with
      | some ts =>
        Except.ok (some { timestamp := ts, formatted_time := _format_timestamp ts })
      | none => Except.error "IndexError: list index out of range"
    | none => Except.error "IndexError: list index out of range"
  else Except.ok none

/-- `check_url_availability`: three CDX calls are awaited in order (a
transport failure in any of them raises); the count result is never read; the
first/last bodies are used only when their status is exactly 200, with no
`raise_for_status` anywhere. -/
def check_url_availability (url : Str)
    (count_resp first_resp last_resp : Except String (Nat × List (List Str))) :
    Except String CheckResult := do
  let _ ← count_resp
  let (first_code, first_body) ← first_resp
  let (last_code, last_body) ← last_resp
  let first_data := if first_code == 200 then first_body else []
  let last_data := if last_code == 200 then last_body else []
  let first_snapshot ← snapFromData first_data
  let last_snapshot ← snapFromData last_data
  pure { url := url
         is_archived := first_snapshot.isSome
         first_snapshot := first_snapshot
         latest_snapshot := last_snapshot
         wayback_url := "https://web.archive.org/web/*/".data ++ url }

/-! ## `call_tool` dispatch (`src/server.py` lines 152-174) -/

/-- One reshaped payload of a successful tool call. -/
inductive ToolPayload where
  | latest (r : LatestResult)
  | atDate (r : AtDateResult)
  | search (r : SearchResult)
  | content (r : ContentResult)
  | check (r : CheckResult)
deriving Repr, DecidableEq

/-- A `CallToolResult`: a normal text payload, or an error-flagged text with
`isError = True`. -/
inductive CallResult where
  | ok (payload : ToolPayload)
  | err (text : String)
deriving Repr, DecidableEq

/-- The `isError` flag of a `CallToolResult`. -/
def CallResult.isError : CallResult → Bool
  | .ok _ => false
  | .err _ => true

/-- The `try`/`except` of `call_tool`: a handler exception `e` becomes an
error-flagged result with text `"Error: " + str(e)`. -/
def wrapExcept (r : Except String ToolPayload) : CallResult :=
  match r with
  | .ok p => .ok p
  | .error e => .err ("Error: " ++ e)

/-- The tool arguments used by the five handlers. -/
structure ToolArguments where
  url : Str := []
  timestamp : Str := []
  limit : Option Int := none
  snapshot_url : Str := []
  raw : Bool := false
deriving Repr

/-- The upstream responses available to one tool invocation. -/
structure ToolEnv where
  avail : Except String (Nat × Option Closest)
  cdx : Except String (Nat × List (List Str))
  contentResp : Except String (Nat × Str)
  check_count : Except String (Nat × List (List Str))
  check_first : Except String (Nat × List (List Str))
  check_last : Except String (Nat × List (List Str))
deriving Repr

/-- `call_tool` from `src/server.py`: dispatch on the tool name, wrap every
handler exception as an error-flagged result, and answer unknown names with
`"Unknown tool: <name>"`. -/
def call_tool (name : String) (args : ToolArguments) (env : ToolEnv) : CallResult :=
  if name = "get_latest_snapshot" then
    wrapExcept ((get_latest_snapshot args.url env.avail).map ToolPayload.latest)
  else if name = "get_snapshot_at_date" then
    wrapExcept ((get_snapshot_at_date args.url args.timestamp env.avail).map ToolPayload.atDate)
  else if name = "search_snapshots" then
    wrapExcept ((search_snapshots args.url env.cdx).map ToolPayload.search)
  else if name = "get_snapshot_content" then
    wrapExcept ((get_snapshot_content args.snapshot_url args.raw env.contentResp).map
      ToolPayload.content)
  else if name = "check_url_availability" then
    wrapExcept ((check_url_availability args.url env.check_count env.check_first
      env.check_last).map ToolPayload.check)
  else
    CallResult.err ("Unknown tool: " ++ name)

/-- C7: a CDX response that is empty or has only a header row yields
`total_found = 0` with no snapshots; with a header row and `n` data rows,
`total_found = n` and the `i`-th record is the header names zipped onto the
`i`-th row. -/
theorem search_snapshots_reshaping (url : Str) (raw : List (List Str)) :
    (raw.length < 2 →
      searchReshape url raw = { url := url, total_found := 0, snapshots := [] }) ∧
    (∀ headers rows, raw = headers :: rows → 2 ≤ raw.length →
      (searchReshape url raw).total_found = rows.length ∧
      (searchReshape url raw).snapshots = rows.map (mkSearchSnapshot headers)) := by
  constructor
  · intro h
    have he : (raw.isEmpty || decide (raw.length < 2)) = true := by
      simp [h]
    simp [searchReshape, he]
  · intro headers rows hraw hlen
    subst hraw
    have he : ((headers :: rows).isEmpty || decide ((headers :: rows).length < 2))
        = false := by
      simp only [List.isEmpty_cons, Bool.false_or, decide_eq_false_iff_not]
      omega
    have hnlt : ¬ (rows.length + 1 < 2) := by
      simp only [List.length_cons] at hlen
      omega
    simp [searchReshape, he, hnlt]

/-- Witness for C7: a header-only response and a two-row response. -/
theorem search_snapshots_reshaping_witness :
    searchReshape "example.com".data [["timestamp".data, "original".data]]
      = { url := "example.com".data, total_found := 0, snapshots := [] } ∧
    (searchReshape "example.com".data
        [["timestamp".data, "original".data],
         ["20230101120000".data, "https://example.com".data]]).total_found = 1 :=
  ⟨(search_snapshots_reshaping "example.com".data
      [["timestamp".data, "original".data]]).1 (by decide),
   ((search_snapshots_reshaping "example.com".data
      [["timestamp".data, "original".data],
       ["20230101120000".data, "https://example.com".data]]).2
      ["timestamp".data, "original".data]
      [["20230101120000".data, "https://example.com".data]] rfl (by decide)).1⟩

/-- C8: with a 2xx availability response, a missing `closest` or a falsy
`closest.available` yields the `available: false` shape, which carries no
`snapshot_url` field; a truthy `closest.available` with its `url` and
`timestamp` keys present yields the flattened `available: true` shape with the
formatted time. -/
theorem get_latest_snapshot_availability (url : Str) (code : Nat)
    (closest : Option Closest) (h2xx : 200 ≤ code ∧ code < 300) :
    ((closest = none ∨ ∃ c, closest = some c ∧ truthyOpt c.available = false) →
      get_latest_snapshot url (Except.ok (code, closest))
        = Except.ok (LatestResult.notAvailable url
            "No snapshots found for this URL".data)) ∧
    (∀ c ts u, closest = some c → truthyOpt c.available = true →
      c.timestamp = some ts → c.url = some u →
      get_latest_snapshot url (Except.ok (code, closest))
        = Except.ok (LatestResult.available url u ts (_format_timestamp ts)
            (c.status.getD "unknown".data))) := by
  constructor
  · intro h
    rcases h with h | ⟨c, hc, hfalsy⟩
    · subst h
      simp [get_latest_snapshot, raise_for_status, h2xx.1, h2xx.2,
        bind, Except.bind, pure, Except.pure]
    · subst hc
      simp [get_latest_snapshot, raise_for_status, h2xx.1, h2xx.2, hfalsy,
        bind, Except.bind, pure, Except.pure]
  · intro c ts u hc htruthy hts hu
    subst hc
    simp [get_latest_snapshot, raise_for_status, h2xx.1, h2xx.2, htruthy, hts, hu,
      bind, Except.bind, pure, Except.pure]

/-- A truthy `closest` object used as a concrete witness input. -/
def closestTrueEx : Closest :=
  ⟨some true,
   some "https://web.archive.org/web/20230101120000/https://example.com".data,
   some "20230101120000".data, some "200".data⟩

/-- A falsy `closest` object used as a concrete witness input. -/
def closestFalseEx : Closest := ⟨some false, none, none, none⟩

/-- Witness for C8: a falsy `closest` and a truthy `closest` at status 200. -/
theorem get_latest_snapshot_availability_witness :
    get_latest_snapshot "example.com".data (Except.ok (200, some closestFalseEx))
      = Except.ok (LatestResult.notAvailable "example.com".data
          "No snapshots found for this URL".data) ∧
    get_latest_snapshot "example.com".data (Except.ok (200, some closestTrueEx))
      = Except.ok (LatestResult.available "example.com".data
          "https://web.archive.org/web/20230101120000/https://example.com".data
          "20230101120000".data "2023-01-01 12:00:00 UTC".data "200".data) := by
  constructor
  · exact (get_latest_snapshot_availability "example.com".data 200
      (some closestFalseEx) (by decide)).1 (Or.inr ⟨closestFalseEx, rfl, rfl⟩)
  · have h := (get_latest_snapshot_availability "example.com".data 200
      (some closestTrueEx) (by decide)).2 closestTrueEx "20230101120000".data
      "https://web.archive.org/web/20230101120000/https://example.com".data
      rfl rfl rfl rfl
    rw [h]
    have e : _format_timestamp "20230101120000".data
        = "2023-01-01 12:00:00 UTC".data := by decide
    rw [e]
    rfl

theorem snapFromData_spec (data : List (List Str)) (o : Option CheckSnap)
    (h : snapFromData data = Except.ok o) :
    o.isSome = decide (2 ≤ data.length) := by
  unfold snapFromData at h
  by_cases hg : (!data.isEmpty && decide (data.length > 1)) = true
  · have hlen : 2 ≤ data.length := by
      have h2 := of_decide_eq_true ((Bool.and_eq_true _ _).mp hg).2
      omega
    rw [if_pos hg] at h
    cases hget : data.get? 1 with
    | none =>
      simp only [hget] at h
      exact absurd h (by simp)
    | some row =>
      simp only [hget] at h
      cases hrow : row.get? 0 with
      | none =>
        simp only [hrow] at h
        exact absurd h (by simp)
      | some ts =>
        simp only [hrow] at h
        have hr := Except.ok.inj h
        subst hr
        simp [hlen]
  · have hlen : ¬ (2 ≤ data.length) := by
      have hg' : (!data.isEmpty && decide (data.length > 1)) = false := by
        simpa using hg
      by_cases hemp : data.isEmpty = true
      · have : data = [] := List.isEmpty_iff.mp hemp
        subst this
        simp
      · have hne : (!data.isEmpty) = true := by
          simp [Bool.not_eq_true] at hemp ⊢
          exact hemp
        rw [hne, Bool.true_and] at hg'
        have := of_decide_eq_false hg'
        omega
    rw [if_neg hg] at h
    have hr := Except.ok.inj h
    subst hr
    simp [hlen]

/-- C1: whenever `check_url_availability` returns a normal result `r`,
`r.is_archived = true` exactly when the first-snapshot CDX call (the
`limit=1` call without `fastLatest`) came back with status 200 and a JSON
array of at least two elements — a header row plus at least one data row. -/
theorem check_url_availability_is_archived (url : Str)
    (count_resp : Except String (Nat × List (List Str)))
    (first_code : Nat) (first_body : List (List Str))
    (last_code : Nat) (last_body : List (List Str)) (r : CheckResult)
    (h : check_url_availability url count_resp (Except.ok (first_code, first_body))
          (Except.ok (last_code, last_body)) = Except.ok r) :
    r.is_archived = true ↔ (first_code = 200 ∧ 2 ≤ first_body.length) := by
  cases count_resp with
  | error e =>
    simp [check_url_availability, bind, Except.bind] at h
  | ok p =>
    simp only [check_url_availability, bind, Except.bind, pure, Except.pure] at h
    cases hfs : snapFromData (if first_code == 200 then first_body else []) with
    | error e =>
      rw [hfs] at h
      exact absurd h (by simp)
    | ok fs =>
      rw [hfs] at h
      cases hls : snapFromData (if last_code == 200 then last_body else []) with
      | error e =>
        rw [hls] at h
        exact absurd h (by simp)
      | ok ls =>
        rw [hls] at h
        have hr := Except.ok.inj h
        subst hr
        have hspec := snapFromData_spec _ _ hfs
        by_cases hc : first_code = 200
        · subst hc
          simp only [beq_self_eq_true, if_true] at hspec
          constructor
          · intro ha
            have ha' : fs.isSome = true := ha
            refine ⟨rfl, ?_⟩
            rw [ha'] at hspec
            exact of_decide_eq_true hspec.symm
          · intro hx
            show fs.isSome = true
            rw [hspec]
            simpa using hx.2
        · have hbeq : (first_code == 200) = false := by
            simp [hc]
          simp only [hbeq, Bool.false_eq_true, if_false] at hspec
          constructor
          · intro ha
            have ha' : fs.isSome = true := ha
            rw [ha'] at hspec
            simp at hspec
          · intro hx
            exact absurd hx.1 hc

/-- A concrete CDX body with a header row and one data row. -/
def cdxTwoRows : List (List Str) :=
  [["timestamp".data, "statuscode".data], ["20230101120000".data, "200".data]]

/-- The concrete result `check_url_availability` produces from `cdxTwoRows`. -/
def checkResultEx : CheckResult :=
  ⟨"example.com".data, true,
   some ⟨"20230101120000".data, "2023-01-01 12:00:00 UTC".data⟩,
   some ⟨"20230101120000".data, "2023-01-01 12:00:00 UTC".data⟩,
   "https://web.archive.org/web/*/example.com".data⟩

/-- Witness for C1 at a concrete 200-status two-row CDX response. -/
theorem check_url_availability_is_archived_witness :
    checkResultEx.is_archived = true :=
  (check_url_availability_is_archived "example.com".data (Except.ok (200, []))
    200 cdxTwoRows 200 cdxTwoRows checkResultEx (by rfl)).mpr ⟨rfl, by decide⟩

/-- C9: an unknown tool name yields the error-flagged `"Unknown tool: <name>"`
result directly, and an exception `e` raised by any of the five handlers is
caught and converted into the error-flagged `"Error: <e>"` result — `call_tool`
itself is total and never propagates an exception. -/
theorem call_tool_exception_handling (name : String) (args : ToolArguments)
    (env : ToolEnv) :
    (name ≠ "get_latest_snapshot" → name ≠ "get_snapshot_at_date" →
     name ≠ "search_snapshots" → name ≠ "get_snapshot_content" →
     name ≠ "check_url_availability" →
      call_tool name args env = CallResult.err ("Unknown tool: " ++ name)) ∧
    (∀ e, get_latest_snapshot args.url env.avail = Except.error e →
      call_tool "get_latest_snapshot" args env = CallResult.err ("Error: " ++ e)) ∧
    (∀ e, get_snapshot_at_date args.url args.timestamp env.avail = Except.error e →
      call_tool "get_snapshot_at_date" args env = CallResult.err ("Error: " ++ e)) ∧
    (∀ e, search_snapshots args.url env.cdx = Except.error e →
      call_tool "search_snapshots" args env = CallResult.err ("Error: " ++ e)) ∧
    (∀ e, get_snapshot_content args.snapshot_url args.raw env.contentResp
        = Except.error e →
      call_tool "get_snapshot_content" args env = CallResult.err ("Error: " ++ e)) ∧
    (∀ e, check_url_availability args.url env.check_count env.check_first
        env.check_last = Except.error e →
      call_tool "check_url_availability" args env
        = CallResult.err ("Error: " ++ e)) := by
  refine ⟨?_, ?_, ?_, ?_, ?_, ?_⟩
  · intro h1 h2 h3 h4 h5
    simp [call_tool, h1, h2, h3, h4, h5]
  all_goals intro e he
  all_goals simp [call_tool, he, wrapExcept, Except.map]

/-- A `ToolEnv` in which every upstream request fails at the transport level. -/
def envBoom : ToolEnv :=
  ⟨Except.error "boom", Except.error "boom", Except.error "boom",
   Except.error "boom", Except.error "boom", Except.error "boom"⟩

/-- Witness for C9: an unknown tool name, and a transport failure surfaced as
`"Error: boom"`. -/
theorem call_tool_exception_handling_witness :
    call_tool "does_not_exist" {} envBoom
      = CallResult.err ("Unknown tool: " ++ "does_not_exist") ∧
    call_tool "get_latest_snapshot" {} envBoom
      = CallResult.err ("Error: " ++ "boom") :=
  ⟨(call_tool_exception_handling "does_not_exist" {} envBoom).1
      (by decide) (by decide) (by decide) (by decide) (by decide),
   (call_tool_exception_handling "get_latest_snapshot" {} envBoom).2.1 "boom" rfl⟩

/-- A `ToolEnv` whose CDX lookups for `check_url_availability` complete with
HTTP status 404 yet carry data rows. -/
def env404 : ToolEnv :=
  ⟨Except.ok (200, none), Except.ok (200, []), Except.ok (200, []),
   Except.ok (404, cdxTwoRows), Except.ok (404, cdxTwoRows),
   Except.ok (404, cdxTwoRows)⟩

/-- C3 counterexample: the first-snapshot CDX call of `check_url_availability`
completes with the non-2xx status 404, yet the tool returns a normal,
non-error-flagged result (`is_archived: false`) instead of an error-flagged
one. -/
theorem upstream_error_claim_counterexample :
    env404.check_first = Except.ok (404, cdxTwoRows) ∧
    ¬ (200 ≤ 404 ∧ 404 < 300) ∧
    (call_tool "check_url_availability" {} env404).isError = false ∧
    call_tool "check_url_availability" {} env404
      = CallResult.ok (ToolPayload.check
          ⟨[], false, none, none, "https://web.archive.org/web/*/".data⟩) := by
  refine ⟨rfl, by decide, by decide, by decide⟩

/-- C3 (amended): the four handlers that call `raise_for_status` surface any
non-2xx upstream status as an error-flagged result carrying the raised
message, and a transport failure on any outbound request of any of the five
tools is surfaced the same way (nothing is retried and no normal result is
produced from those failures); `check_url_availability` alone performs no
`raise_for_status`: its CDX statuses other than 200 are treated as empty
data, producing a normal non-error result. -/
theorem upstream_error_handling_amended (args : ToolArguments) (env : ToolEnv) :
    (∀ code closest, env.avail = Except.ok (code, closest) →
      ¬ (200 ≤ code ∧ code < 300) →
      call_tool "get_latest_snapshot" args env
        = CallResult.err ("Error: " ++ "HTTPStatusError") ∧
      call_tool "get_snapshot_at_date" args env
        = CallResult.err ("Error: " ++ "HTTPStatusError")) ∧
    (∀ code raw, env.cdx = Except.ok (code, raw) →
      ¬ (200 ≤ code ∧ code < 300) →
      call_tool "search_snapshots" args env
        = CallResult.err ("Error: " ++ "HTTPStatusError")) ∧
    (∀ code body, env.contentResp = Except.ok (code, body) →
      ¬ (200 ≤ code ∧ code < 300) →
      call_tool "get_snapshot_content" args env
        = CallResult.err ("Error: " ++ "HTTPStatusError")) ∧
    (∀ e, env.avail = Except.error e →
      call_tool "get_latest_snapshot" args env = CallResult.err ("Error: " ++ e) ∧
      call_tool "get_snapshot_at_date" args env
        = CallResult.err ("Error: " ++ e)) ∧
    (∀ e, env.cdx = Except.error e →
      call_tool "search_snapshots" args env = CallResult.err ("Error: " ++ e)) ∧
    (∀ e, env.contentResp = Except.error e →
      call_tool "get_snapshot_content" args env = CallResult.err ("Error: " ++ e)) ∧
    (∀ e, env.check_count = Except.error e →
      call_tool "check_url_availability" args env
        = CallResult.err ("Error: " ++ e)) ∧
    (∀ p e, env.check_count = Except.ok p → env.check_first = Except.error e →
      call_tool "check_url_availability" args env
        = CallResult.err ("Error: " ++ e)) ∧
    (∀ p q e, env.check_count = Except.ok p → env.check_first = Except.ok q →
      env.check_last = Except.error e →
      call_tool "check_url_availability" args env
        = CallResult.err ("Error: " ++ e)) ∧
    (∀ c1 b1 c2 b2 c3 b3, env.check_count = Except.ok (c1, b1) →
      env.check_first = Except.ok (c2, b2) → env.check_last = Except.ok (c3, b3) →
      c2 ≠ 200 → c3 ≠ 200 →
      call_tool "check_url_availability" args env
        = CallResult.ok (ToolPayload.check ⟨args.url, false, none, none,
            "https://web.archive.org/web/*/".data ++ args.url⟩)) := by
  refine ⟨?_, ?_, ?_, ?_, ?_, ?_, ?_, ?_, ?_, ?_⟩
  · intro code closest he hnc
    constructor
    · simp [call_tool, he, wrapExcept, Except.map, get_latest_snapshot,
        raise_for_status, hnc, bind, Except.bind]
    · simp [call_tool, he, wrapExcept, Except.map, get_snapshot_at_date,
        raise_for_status, hnc, bind, Except.bind]
  · intro code raw he hnc
    simp [call_tool, he, wrapExcept, Except.map, search_snapshots,
      raise_for_status, hnc, bind, Except.bind]
  · intro code body he hnc
    simp [call_tool, he, wrapExcept, Except.map, get_snapshot_content,
      raise_for_status, hnc, bind, Except.bind]
  · intro e he
    constructor
    · simp [call_tool, he, wrapExcept, Except.map, get_latest_snapshot,
        bind, Except.bind]
    · simp [call_tool, he, wrapExcept, Except.map, get_snapshot_at_date,
        bind, Except.bind]
  · intro e he
    simp [call_tool, he, wrapExcept, Except.map, search_snapshots,
      bind, Except.bind]
  · intro e he
    simp [call_tool, he, wrapExcept, Except.map, get_snapshot_content,
      bind, Except.bind]
  · intro e he
    simp [call_tool, he, wrapExcept, Except.map, check_url_availability,
      bind, Except.bind]
  · intro p e h1 h2
    simp [call_tool, h1, h2, wrapExcept, Except.map, check_url_availability,
      bind, Except.bind]
  · intro p q e h1 h2 h3
    simp [call_tool, h1, h2, h3, wrapExcept, Except.map, check_url_availability,
      bind, Except.bind]
  · intro c1 b1 c2 b2 c3 b3 h1 h2 h3 hn2 hn3
    simp [call_tool, h1, h2, h3, hn2, hn3, wrapExcept, Except.map,
      check_url_availability, snapFromData, bind, Except.bind, pure, Except.pure]

/-- A `ToolEnv` in which every upstream request completes with HTTP 404 and
the count-oriented CDX call fails at the transport level. -/
def envHttp404 : ToolEnv :=
  ⟨Except.ok (404, none), Except.ok (404, []), Except.ok (404, "x".data),
   Except.error "ConnectError", Except.ok (404, []), Except.ok (404, [])⟩

/-- A `ToolEnv` in which only `check_url_availability`'s first-snapshot CDX
call fails at the transport level. -/
def envCheckFirstBoom : ToolEnv :=
  ⟨Except.ok (200, none), Except.ok (200, []), Except.ok (200, "x".data),
   Except.ok (200, []), Except.error "ReadTimeout", Except.ok (200, [])⟩

/-- A `ToolEnv` in which only `check_url_availability`'s latest-snapshot CDX
call fails at the transport level. -/
def envCheckLastBoom : ToolEnv :=
  ⟨Except.ok (200, none), Except.ok (200, []), Except.ok (200, "x".data),
   Except.ok (200, []), Except.ok (200, []), Except.error "ReadTimeout"⟩

/-- Witness for C3 (amended): concrete 404 responses for the four raising
tools, transport failures on each of the five tools (including each of the
three check calls), and check's normal result under 404 statuses. -/
theorem upstream_error_handling_amended_witness :
    call_tool "get_latest_snapshot" {} envHttp404
      = CallResult.err ("Error: " ++ "HTTPStatusError") ∧
    call_tool "get_snapshot_at_date" {} envHttp404
      = CallResult.err ("Error: " ++ "HTTPStatusError") ∧
    call_tool "search_snapshots" {} envHttp404
      = CallResult.err ("Error: " ++ "HTTPStatusError") ∧
    call_tool "get_snapshot_content" {} envHttp404
      = CallResult.err ("Error: " ++ "HTTPStatusError") ∧
    call_tool "get_latest_snapshot" {} envBoom
      = CallResult.err ("Error: " ++ "boom") ∧
    call_tool "get_snapshot_at_date" {} envBoom
      = CallResult.err ("Error: " ++ "boom") ∧
    call_tool "search_snapshots" {} envBoom
      = CallResult.err ("Error: " ++ "boom") ∧
    call_tool "get_snapshot_content" {} envBoom
      = CallResult.err ("Error: " ++ "boom") ∧
    call_tool "check_url_availability" {} envHttp404
      = CallResult.err ("Error: " ++ "ConnectError") ∧
    call_tool "check_url_availability" {} envCheckFirstBoom
      = CallResult.err ("Error: " ++ "ReadTimeout") ∧
    call_tool "check_url_availability" {} envCheckLastBoom
      = CallResult.err ("Error: " ++ "ReadTimeout") ∧
    call_tool "check_url_availability" {} env404
      = CallResult.ok (ToolPayload.check
          ⟨[], false, none, none, "https://web.archive.org/web/*/".data ++ []⟩) :=
  ⟨((upstream_error_handling_amended {} envHttp404).1 404 none rfl (by decide)).1,
   ((upstream_error_handling_amended {} envHttp404).1 404 none rfl (by decide)).2,
   (upstream_error_handling_amended {} envHttp404).2.1 404 [] rfl (by decide),
   (upstream_error_handling_amended {} envHttp404).2.2.1 404 "x".data rfl (by decide),
   ((upstream_error_handling_amended {} envBoom).2.2.2.1 "boom" rfl).1,
   ((upstream_error_handling_amended {} envBoom).2.2.2.1 "boom" rfl).2,
   (upstream_error_handling_amended {} envBoom).2.2.2.2.1 "boom" rfl,
   (upstream_error_handling_amended {} envBoom).2.2.2.2.2.1 "boom" rfl,
   (upstream_error_handling_amended {} envHttp404).2.2.2.2.2.2.1 "ConnectError" rfl,
   (upstream_error_handling_amended {} envCheckFirstBoom).2.2.2.2.2.2.2.1
     (200, []) "ReadTimeout" rfl rfl,
   (upstream_error_handling_amended {} envCheckLastBoom).2.2.2.2.2.2.2.2.1
     (200, []) (200, []) "ReadTimeout" rfl rfl rfl,
   (upstream_error_handling_amended {} env404).2.2.2.2.2.2.2.2.2 404 cdxTwoRows
     404 cdxTwoRows 404 cdxTwoRows rfl rfl rfl (by decide) (by decide)⟩
